import Mathlib

/-!
Shallow embedding of `src/pandas_mail_script.py`: configuration loading,
recipient loading and filtering, report building, MIME message construction
and the per-recipient send loop, together with theorems about the
specification's claims.
-/

namespace PandasMail

/-- A Python value as it can appear in a pandas cell after CSV parsing:
missing (`NA`/`NaN`), a boolean, an integer, or a string. -/
inductive PyVal where
  | na
  | bool (b : Bool)
  | int (n : Int)
  | str (s : String)
deriving DecidableEq, Repr

/-- Python exceptions that the script can raise: `ValueError` (from `int(...)`)
and `RuntimeError` (the configuration error), each carrying its message/detail. -/
inductive PyError where
  | valueError (s : String)
  | runtimeError (s : String)
deriving DecidableEq, Repr

/-- Python's `s.strip()`: drop leading and trailing whitespace. -/
def pyStrip (s : String) : String :=
  ⟨((s.data.dropWhile Char.isWhitespace).reverse.dropWhile
      Char.isWhitespace).reverse⟩

/-- Value of a decimal digit string, `none` if empty or non-digit. -/
def digitsVal (l : List Char) : Option Nat :=
  if l = [] then none
  else if l.all Char.isDigit then
    some (l.foldl (fun a c => a * 10 + (c.toNat - 48)) 0)
  else none

/-- Python's `int(s)`: strip surrounding whitespace, optional sign, decimal
digits; `none` models the `ValueError` on anything else. -/
def parsePyInt (s : String) : Option Int :=
  match (pyStrip s).data with
  | [] => none
  | '+' :: rest => (digitsVal rest).map Int.ofNat
  | '-' :: rest => (digitsVal rest).map (fun n => -(n : Int))
  | l => (digitsVal l).map Int.ofNat

/-- The configuration record built by `load_env`. -/
structure Cfg where
  host : String
  port : Int
  user : String
  password : String
  from_email : String
  fallback_to : String
deriving DecidableEq, Repr

/-- An environment: maps a variable name to its value, `none` when unset. -/
def Env := String → Option String

/-- The `(key, value)` pairs of the `cfg` dict that take part in the
required-key validation, in dict insertion order (`port` is an integer and is
exempt from the check, so it is not listed). `host` gets the default
`"smtp.gmail.com"` when `SMTP_HOST` is unset. -/
def requiredPairs (env : Env) : List (String × Option String) :=
  [("host", some ((env "SMTP_HOST").getD "smtp.gmail.com")),
   ("user", env "SMTP_USER"),
   ("password", env "SMTP_PASS"),
   ("from_email", env "FROM_EMAIL"),
   ("fallback_to", env "FALLBACK_TO")]

/-- Python's `v in (None, "")`. -/
def isMissingVal : Option String → Bool
  | none => true
  | some s => s = ""

/-- `missing = [k for k, v in cfg.items() if v in (None, "") and k not in ("port",)]`. -/
def missingKeys (env : Env) : List String :=
  ((requiredPairs env).filter (fun p => isMissingVal p.2)).map Prod.fst

/-- The message of the configuration `RuntimeError`. -/
def missingMsg (keys : List String) : String :=
  "Missing required environment variables: " ++ String.intercalate ", " keys

/-- `load_env`: reads the SMTP configuration from the environment.
`int(os.getenv("SMTP_PORT", "587"))` runs while the dict is built, before the
required-key validation, so an unparsable port raises `ValueError` first. -/
def load_env (env : Env) : Except PyError Cfg :=
  match parsePyInt ((env "SMTP_PORT").getD "587") with
  | none => .error (.valueError ((env "SMTP_PORT").getD "587"))
  | some port =>
    if missingKeys env = [] then
      .ok { host := (env "SMTP_HOST").getD "smtp.gmail.com"
            port := port
            user := (env "SMTP_USER").getD ""
            password := (env "SMTP_PASS").getD ""
            from_email := (env "FROM_EMAIL").getD ""
            fallback_to := (env "FALLBACK_TO").getD "" }
    else
      .error (.runtimeError (missingMsg (missingKeys env)))

/-! ## Recipient loading -/

/-- One parsed row of `recipients.csv`. `email` and `name` are read with
`dtype "string"`, so a blank cell is `NA` (`none`); `active` keeps whatever
type pandas inferred for that column. -/
structure RawRow where
  email : Option String
  name : Option String
  active : PyVal
deriving DecidableEq, Repr

/-- The parsed recipients table: which optional columns are present, plus the
rows in file order. (An `email` column is always present; `load_recipients`
indexes it unconditionally.) -/
structure Table where
  hasName : Bool
  hasActive : Bool
  rows : List RawRow
deriving DecidableEq, Repr

/-- Python's `s.strip().lower()` (ASCII model of `lower`). -/
def pyStripLower (s : String) : String :=
  ⟨(pyStrip s).data.map Char.toLower⟩

/-- pandas `series == True` on one cell: numpy equality with Python's `True`,
which equals the integer 1; `NA`/`NaN` and every string compare unequal. -/
def pandasEqTrue : PyVal → Bool
  | .bool b => b
  | .int n => n = 1
  | _ => false

/-- `df["email"].str.contains("@", na=False)` on one cell: the pattern is the
single character `"@"`, so containment is membership of `'@'` among the
string's characters. -/
def emailHasAt : Option String → Bool
  | none => false
  | some s => s.data.contains '@'

/-- `df["email"] = df["email"].str.strip().str.lower()` (`NA` stays `NA`). -/
def normRows (t : Table) : List RawRow :=
  t.rows.map (fun r => { r with email := r.email.map pyStripLower })

/-- `if "active" in df.columns: df = df[df["active"] == True]`. -/
def activeRows (t : Table) : List RawRow :=
  if t.hasActive then (normRows t).filter (fun r => pandasEqTrue r.active)
  else normRows t

/-- `df = df[df["email"].str.contains("@", na=False)]`. -/
def validRows (t : Table) : List RawRow :=
  (activeRows t).filter (fun r => emailHasAt r.email)

/-- `df.drop_duplicates(subset=["email"])`: keep a row when its email is not in
the set of emails already seen. -/
def dropDupAux (seen : List (Option String)) : List RawRow → List RawRow
  | [] => []
  | r :: rest =>
    if r.email ∈ seen then dropDupAux seen rest
    else r :: dropDupAux (r.email :: seen) rest

/-- `df.drop_duplicates(subset=["email"])`, keeping the first occurrence. -/
def dropDupFirst (l : List RawRow) : List RawRow :=
  dropDupAux [] l

/-- A recipient as the driver consumes it: one `(email, name)` pair. -/
structure Recipient where
  email : String
  name : String
deriving DecidableEq, Repr

/-- Name fill: if the `name` column is absent it is created as `""`; otherwise
`NA` names become `""` (`df["name"].fillna("")`). -/
def fillName (t : Table) (r : RawRow) : String :=
  if t.hasName then r.name.getD "" else ""

/-- `load_recipients(csv_path)`: `none` models a missing file (returns the
empty frame); otherwise normalize emails, apply the `active` filter, keep rows
whose email contains `"@"`, drop duplicate emails keeping the first, fill
names, and return the `email`/`name` columns. -/
def load_recipients : Option Table → List Recipient
  | none => []
  | some t =>
    (dropDupFirst (validRows t)).map
      (fun r => ⟨r.email.getD "", fillName t r⟩)

/-- Driver step 2 (`main`): load recipients and, if the result is empty,
substitute the single fallback recipient with the fixed name `"Primatelj"`. -/
def driverRecipients (cfg : Cfg) (src : Option Table) : List Recipient :=
  let r := load_recipients src
  if r.isEmpty then [⟨cfg.fallback_to, "Primatelj"⟩] else r

/-! ## Report builder -/

/-- One business record `{"sku": ..., "status": ..., "qty": ...}`. -/
structure Item where
  sku : String
  status : String
  qty : Int
deriving DecidableEq, Repr

/-- One row of the concatenated report frame. The columns are the union of the
summary columns and the detail columns; a cell a row does not have is `NaN`
(`none`). The leading `section` column is the field `sectionTag` (`section` is
a Lean keyword). -/
structure ReportRow where
  sectionTag : String
  status : String
  total_skus : Option Int
  total_qty : Option Int
  sku : Option String
  qty : Option Int
deriving DecidableEq, Repr

/-- Lexicographic comparison of character lists by code point. -/
def lexLe : List Char → List Char → Bool
  | [], _ => true
  | _ :: _, [] => false
  | a :: as, b :: bs => if a = b then lexLe as bs else decide (a.toNat < b.toNat)

/-- Lexicographic `<=` on strings (the order pandas sorts group keys by). -/
def strLeb (a b : String) : Bool :=
  lexLe a.data b.data

/-- Insert a string into an ascending list (helper for the groupby key
ordering). -/
def insertSorted (s : String) : List String → List String
  | [] => [s]
  | x :: xs => if strLeb s x then s :: x :: xs else x :: insertSorted s xs

/-- Ascending insertion sort on strings. -/
def sortAsc : List String → List String
  | [] => []
  | x :: xs => insertSorted x (sortAsc xs)

/-- The distinct status keys of `df.groupby("status")`, in pandas order:
sorted ascending (groupby sorts group keys by default). -/
def statusKeys (items : List Item) : List String :=
  sortAsc ((items.map Item.status).eraseDups)

/-- The rows of one status group. -/
def groupOf (items : List Item) (st : String) : List Item :=
  items.filter (fun it => it.status = st)

/-- `df.groupby("status").agg(total_skus=("sku","count"), total_qty=("qty","sum"))`
with the `section` column inserted in front and set to `"summary"`. -/
def summaryRows (items : List Item) : List ReportRow :=
  (statusKeys items).map (fun st =>
    { sectionTag := "summary", status := st,
      total_skus := some ((groupOf items st).length : Int),
      total_qty := some (((groupOf items st).map Item.qty).sum),
      sku := none, qty := none })

/-- The original records with the `section` column inserted and set to
`"detail"`. -/
def detailRows (items : List Item) : List ReportRow :=
  items.map (fun it =>
    { sectionTag := "detail", status := it.status,
      total_skus := none, total_qty := none,
      sku := some it.sku, qty := some it.qty })

/-- `build_report` generalized over the record sequence (the spec treats the
fixed dataset as data supplied by an external collaborator):
`pd.concat([summary, df2], ignore_index=True)`. -/
def build_report_on (items : List Item) : List ReportRow :=
  summaryRows items ++ detailRows items

/-- The fixed example dataset of `build_report`. -/
def sample_items : List Item :=
  [⟨"D-235700", "in_stock", 12⟩,
   ⟨"D-226994", "low_stock", 2⟩,
   ⟨"D-211744", "out_of_stock", 0⟩]

/-- `build_report()` as written: the pipeline applied to the fixed dataset. -/
def build_report : List ReportRow :=
  build_report_on sample_items

/-! ## Base64 and MIME message construction -/

/-- The base64 alphabet. -/
def b64chars : List Char :=
  "ABCDEFGHIJKLMNOPQRSTUVWXYZabcdefghijklmnopqrstuvwxyz0123456789+/".data

/-- The base64 character of a 6-bit value. -/
def b64char (n : Nat) : Char :=
  b64chars.getD n 'A'

/-- The 6-bit value of a base64 character. -/
def b64index (c : Char) : Nat :=
  (b64chars.indexOf c)

/-- `encoders.encode_base64`: base64 text of a byte sequence (bytes are `Nat`
values below 256; the library's 76-column line wrapping is elided, it does not
affect the decoded bytes). -/
def base64Encode : List Nat → List Char
  | [] => []
  | [a] => [b64char (a / 4), b64char (a % 4 * 16), '=', '=']
  | [a, b] => [b64char (a / 4), b64char (a % 4 * 16 + b / 16),
               b64char (b % 16 * 4), '=']
  | a :: b :: c :: rest =>
    b64char (a / 4) :: b64char (a % 4 * 16 + b / 16) ::
    b64char (b % 16 * 4 + c / 64) :: b64char (c % 64) :: base64Encode rest

/-- Base64 decoding (the inverse mail clients apply to the payload). -/
def base64Decode : List Char → List Nat
  | c1 :: c2 :: c3 :: c4 :: rest =>
    if c3 = '=' then [b64index c1 * 4 + b64index c2 / 16]
    else if c4 = '=' then
      [b64index c1 * 4 + b64index c2 / 16,
       b64index c2 % 16 * 16 + b64index c3 / 4]
    else
      (b64index c1 * 4 + b64index c2 / 16) ::
      (b64index c2 % 16 * 16 + b64index c3 / 4) ::
      (b64index c3 % 4 * 64 + b64index c4) :: base64Decode rest
  | _ => []

/-- One `MIMEBase("application", "octet-stream")` attachment part after
`encode_base64` and the `Content-Disposition` header. -/
structure AttachmentPart where
  filename : String
  payload : List Char
  contentDisposition : String
deriving DecidableEq, Repr

/-- The `MIMEMultipart("mixed")` message value `make_email` returns: headers,
the `multipart/alternative` plain/HTML pair, and the attachment parts. -/
structure MimeMsg where
  from_email : String
  to_email : String
  subject : String
  plain : String
  html : Option String
  attachments : List AttachmentPart
deriving DecidableEq, Repr

/-- `make_email`: build the multipart message; each attachment's payload is
the base64 text of its content and carries an `attachment` content-disposition
naming the file. -/
def make_email (from_email to_email subject plain_body : String)
    (html_body : Option String) (attachments : List (String × List Nat)) :
    MimeMsg :=
  { from_email := from_email, to_email := to_email, subject := subject,
    plain := plain_body, html := html_body,
    attachments := attachments.map (fun p =>
      { filename := p.1, payload := base64Encode p.2,
        contentDisposition :=
          "attachment; filename=\"" ++ p.1 ++ "\"" }) }

/-! ## Driver: greeting, bodies, send loop -/

/-- `name = (row.get("name") or "").strip(); greeting_name = name if name else "pozdrav"`. -/
def greeting_name (name : String) : String :=
  let n := pyStrip name
  if n = "" then "pozdrav" else n

/-- The fixed text of the plain body after the greeting name. -/
def plainTail : String :=
  ",\n\nBok kak si Deane? Ovo je test.\n\nU privitku je kratki report koji je generiran pomoću pandas-a.\nLp!"

/-- The plain-text body the driver renders for one recipient. -/
def plainBody (g : String) : String :=
  "Bok " ++ g ++ plainTail

/-- The fixed HTML text before the greeting name. -/
def htmlPre : String :=
  "\n        <html>\n          <body>\n            <p>Bok "

/-- The fixed HTML text between the greeting name and the preview table. -/
def htmlMid : String :=
  ",</p>\n            <p><strong>Bok kak si Deane? Ovo je test.</strong></p>\n            <p>U privitku je kratki report (CSV) generiran pomoću <code>pandas</code>.</p>\n            <h4>Pregled (prvih 10 redaka)</h4>\n            "

/-- The fixed HTML text after the preview table. -/
def htmlTail : String :=
  "\n            <p>LP!</p>\n          </body>\n        </html>\n        "

/-- The HTML body the driver renders for one recipient, with the HTML preview
table spliced into it. -/
def htmlBody (g preview_html : String) : String :=
  htmlPre ++ g ++ htmlMid ++ preview_html ++ htmlTail

/-- Detail text of a Python exception (`f"{e}"`). -/
def showPyError : PyError → String
  | .valueError s => s
  | .runtimeError s => s

/-- The console line for a successful send. -/
def sentLine (email : String) : String :=
  "✅ Sent to " ++ email

/-- The console line for a failed send. -/
def failLine (email : String) (e : PyError) : String :=
  "❌ Failed to send to " ++ email ++ ": " ++ showPyError e

/-- The driver's per-recipient loop. `construct` abstracts the unguarded
message-construction step (body rendering plus `make_email`; in Python any
exception there propagates out of the loop), `send` abstracts `send_email`,
the only call inside the `try`. The result is the list of printed status
lines, or the first uncaught exception. -/
def sendLoop (construct : Recipient → Except PyError MimeMsg)
    (send : MimeMsg → Except PyError Unit) :
    List Recipient → Except PyError (List String)
  | [] => .ok []
  | r :: rest =>
    match construct r with
    | .error e => .error e
    | .ok msg =>
      let line :=
        match send msg with
        | .ok _ => sentLine r.email
        | .error e => failLine r.email e
      match sendLoop construct send rest with
      | .error e => .error e
      | .ok lines => .ok (line :: lines)

/-! ## Spec-side recipient pipeline (for the refinement comparison) -/

/-- The specification's validity test for one (already normalized) row: the
row passes the `active` gate, and its email is present, non-empty and
contains `"@"` (section 4.2: rows with empty or missing email, or email
lacking `"@"`, are excluded). -/
def specRowOk (hasActive : Bool) (r : RawRow) : Bool :=
  (!hasActive || pandasEqTrue r.active) &&
  (match r.email with
   | none => false
   | some e => !(e = "") && e.data.contains '@')

/-- First-occurrence deduplication as the specification words it: keep a row
and delete every later row carrying the same email. -/
def firstOccs : List RawRow → List RawRow
  | [] => []
  | r :: rest => r :: firstOccs (rest.filter (fun x => !(x.email = r.email)))
termination_by l => l.length
decreasing_by
  simp only [List.length_cons]
  exact Nat.lt_succ_of_le (List.length_filter_le _ _)

/-- The recipient loader as the specification words it (section 4.2):
normalize emails (trim, lower-case), drop invalid rows, deduplicate by first
occurrence, fill missing names with `""`, return `(email, name)` pairs in
source order. Stated separately from `load_recipients` so the two can be
proved equal. -/
def load_recipients_spec (t : Table) : List Recipient :=
  let nr := t.rows.map (fun r => { r with email := r.email.map pyStripLower })
  let kept := nr.filter (specRowOk t.hasActive)
  (firstOccs kept).map (fun r => ⟨r.email.getD "", fillName t r⟩)

/-! ## Concrete inputs used by the witnesses and counterexamples -/

/-- Environment with the four required variables set non-empty and everything
else unset. -/
def envAllSet : Env := fun k =>
  if k = "SMTP_USER" then some "u"
  else if k = "SMTP_PASS" then some "p"
  else if k = "FROM_EMAIL" then some "from@x"
  else if k = "FALLBACK_TO" then some "fb@x"
  else none

/-- Environment with only `SMTP_USER` set. -/
def envOnlyUser : Env := fun k =>
  if k = "SMTP_USER" then some "u" else none

/-- `envAllSet` with `SMTP_PORT` set to a non-numeric string. -/
def envBadPort : Env := fun k =>
  if k = "SMTP_PORT" then some "abc" else envAllSet k

/-- `envAllSet` with `SMTP_HOST` set to the empty string. -/
def envEmptyHost : Env := fun k =>
  if k = "SMTP_HOST" then some "" else envAllSet k

/-- A recipients table whose single row has `active` equal to the integer 1
(a CSV `active` column holding `1`/`0` is parsed as integers by pandas). -/
def tActiveInt : Table :=
  ⟨true, true, [⟨some "a@b", some "x", .int 1⟩]⟩

/-- A small recipients table exercising trimming, lower-casing, duplicates,
missing emails and missing names. -/
def tSampleRecipients : Table :=
  ⟨true, false,
   [⟨some " A@B ", some "x", .na⟩,
    ⟨some "a@b", some "y", .na⟩,
    ⟨some "c@d", none, .na⟩,
    ⟨none, some "z", .na⟩,
    ⟨some "nope", some "w", .na⟩]⟩

/-- A message constructor that always succeeds (abstracting `make_email` on
well-formed inputs). -/
def constructOk : Recipient → Except PyError MimeMsg := fun r =>
  .ok (make_email "from@x" r.email "s" "p" none [])

/-- A send step that always raises. -/
def sendAlwaysFail : MimeMsg → Except PyError Unit := fun _ =>
  .error (.runtimeError "boom")

/-- A message-construction step that raises. -/
def constructBoom : Recipient → Except PyError MimeMsg := fun _ =>
  .error (.valueError "bad header")

/-- Concrete recipients for the send-loop witnesses. -/
def recA : Recipient := ⟨"a@x", "A"⟩

/-- Concrete recipients for the send-loop witnesses. -/
def recB : Recipient := ⟨"b@x", "B"⟩

/-! ## Theorems -/

/-- A key is missing exactly when some required pair carries it with an
absent-or-empty value. -/
lemma mem_missingKeys (env : Env) (k : String) :
    k ∈ missingKeys env ↔
      ∃ v, (k, v) ∈ requiredPairs env ∧ isMissingVal v = true := by
  simp [missingKeys, List.mem_map, List.mem_filter]

/-- C4: if the recipient source file does not exist, `load_recipients`
returns the empty recipient set without raising, and the driver substitutes
exactly one recipient whose address is the configured fallback address with
the fixed placeholder name `"Primatelj"`. -/
theorem load_recipients_absent_fallback (cfg : Cfg) :
    load_recipients none = [] ∧
    driverRecipients cfg none = [⟨cfg.fallback_to, "Primatelj"⟩] :=
  ⟨rfl, rfl⟩

/-- C10: when `SMTP_PORT` is set to a string that is not a valid integer
literal, `load_env` fails with the `ValueError` from the integer parse, before
the required-key validation, and the error is never the configuration
`RuntimeError` that lists missing keys — whatever the other variables hold. -/
theorem load_env_bad_port (env : Env) (s : String)
    (hset : env "SMTP_PORT" = some s) (hbad : parsePyInt s = none) :
    load_env env = .error (.valueError s) ∧
    ∀ m, load_env env ≠ .error (.runtimeError m) := by
  have h : (env "SMTP_PORT").getD "587" = s := by rw [hset]; rfl
  refine ⟨by simp [load_env, h, hbad], fun m => by simp [load_env, h, hbad]⟩

/-- Witness for C10: `envBadPort` has every required variable set non-empty
and `SMTP_PORT` set to `"abc"`; loading fails with the `ValueError`, not the
configuration error. -/
theorem load_env_bad_port_witness :
    load_env envBadPort = .error (.valueError "abc") ∧
    ∀ m, load_env envBadPort ≠ .error (.runtimeError m) :=
  load_env_bad_port envBadPort "abc" rfl rfl

/-- C8 counterexample: an environment with the four required variables set
non-empty and `SMTP_PORT` unset on which `load_env` nevertheless fails:
`SMTP_HOST` is set to the empty string, so the `host` field is empty and the
validation raises. -/
theorem load_env_default_port_counterexample :
    envEmptyHost "SMTP_USER" = some "u" ∧
    envEmptyHost "SMTP_PASS" = some "p" ∧
    envEmptyHost "FROM_EMAIL" = some "from@x" ∧
    envEmptyHost "FALLBACK_TO" = some "fb@x" ∧
    envEmptyHost "SMTP_PORT" = none ∧
    load_env envEmptyHost =
      .error (.runtimeError "Missing required environment variables: host") :=
  ⟨rfl, rfl, rfl, rfl, rfl, rfl⟩

/-- C8 (amended): in every environment where `SMTP_USER`, `SMTP_PASS`,
`FROM_EMAIL` and `FALLBACK_TO` are set non-empty, `SMTP_PORT` is unset, and
`SMTP_HOST` is not set to the empty string, `load_env` succeeds and the
loaded port is 587. -/
theorem load_env_default_port (env : Env)
    (hport : env "SMTP_PORT" = none)
    (huser : isMissingVal (env "SMTP_USER") = false)
    (hpass : isMissingVal (env "SMTP_PASS") = false)
    (hfrom : isMissingVal (env "FROM_EMAIL") = false)
    (hfb : isMissingVal (env "FALLBACK_TO") = false)
    (hhost : ¬((env "SMTP_HOST").getD "smtp.gmail.com" = "")) :
    ∃ c, load_env env = .ok c ∧ c.port = 587 := by
  have h587 : parsePyInt ((env "SMTP_PORT").getD "587") = some 587 := by
    rw [hport]; rfl
  have hh : isMissingVal (some ((env "SMTP_HOST").getD "smtp.gmail.com")) = false := by
    simp [isMissingVal, hhost]
  have hm : missingKeys env = [] := by
    simp [missingKeys, requiredPairs, List.filter, hh, huser, hpass, hfrom, hfb]
  refine ⟨⟨(env "SMTP_HOST").getD "smtp.gmail.com", 587,
    (env "SMTP_USER").getD "", (env "SMTP_PASS").getD "",
    (env "FROM_EMAIL").getD "", (env "FALLBACK_TO").getD ""⟩, ?_, rfl⟩
  simp [load_env, h587, hm]

/-- Witness for C8: the environment with exactly the four required variables
set non-empty loads successfully with port 587. -/
theorem load_env_default_port_witness :
    ∃ c, load_env envAllSet = .ok c ∧ c.port = 587 :=
  load_env_default_port envAllSet rfl rfl rfl rfl rfl (by decide)

/-- C3: with a parseable (or defaulted) port, `load_env` succeeds exactly when
no configuration field is missing; otherwise it fails with the single
`RuntimeError` whose message joins every missing key. A field counts missing
exactly when its value is absent or empty (`host` can only be empty, its
environment variable having a default), and `port` is never among the missing
keys. -/
theorem load_env_required_keys (env : Env) (p : Int)
    (hp : parsePyInt ((env "SMTP_PORT").getD "587") = some p) :
    (missingKeys env = [] → ∃ c, load_env env = .ok c) ∧
    (missingKeys env ≠ [] →
      load_env env = .error (.runtimeError (missingMsg (missingKeys env)))) ∧
    ("host" ∈ missingKeys env ↔ (env "SMTP_HOST").getD "smtp.gmail.com" = "") ∧
    ("user" ∈ missingKeys env ↔ isMissingVal (env "SMTP_USER") = true) ∧
    ("password" ∈ missingKeys env ↔ isMissingVal (env "SMTP_PASS") = true) ∧
    ("from_email" ∈ missingKeys env ↔ isMissingVal (env "FROM_EMAIL") = true) ∧
    ("fallback_to" ∈ missingKeys env ↔ isMissingVal (env "FALLBACK_TO") = true) ∧
    (∀ k, k ∈ missingKeys env → k ≠ "port") := by
  refine ⟨fun h => ⟨⟨(env "SMTP_HOST").getD "smtp.gmail.com", p,
      (env "SMTP_USER").getD "", (env "SMTP_PASS").getD "",
      (env "FROM_EMAIL").getD "", (env "FALLBACK_TO").getD ""⟩,
      by simp [load_env, hp, h]⟩,
    fun h => by simp [load_env, hp, h],
    by simp [mem_missingKeys, requiredPairs, isMissingVal],
    by simp [mem_missingKeys, requiredPairs],
    by simp [mem_missingKeys, requiredPairs],
    by simp [mem_missingKeys, requiredPairs],
    by simp [mem_missingKeys, requiredPairs],
    ?_⟩
  intro k hk
  rw [mem_missingKeys] at hk
  obtain ⟨v, hv, -⟩ := hk
  simp [requiredPairs] at hv
  rcases hv with ⟨rfl, -⟩ | ⟨rfl, -⟩ | ⟨rfl, -⟩ | ⟨rfl, -⟩ | ⟨rfl, -⟩ <;> decide

/-- Witness for C3: with only `SMTP_USER` set the load fails with the message
naming the missing keys, and `password` is among them. -/
theorem load_env_required_keys_witness :
    load_env envOnlyUser =
      .error (.runtimeError (missingMsg (missingKeys envOnlyUser))) ∧
    ("password" ∈ missingKeys envOnlyUser ↔
      isMissingVal (envOnlyUser "SMTP_PASS") = true) :=
  ⟨(load_env_required_keys envOnlyUser 587 rfl).2.1 (by decide),
   (load_env_required_keys envOnlyUser 587 rfl).2.2.2.2.1⟩

/-- C9 counterexample: for the whitespace-only name `" "`, which is a
non-empty string, the greeting is the fallback word `"pozdrav"`, not the
recipient's name — the code strips the name before testing it. -/
theorem greeting_name_counterexample :
    (" " : String) ≠ "" ∧
    greeting_name " " = "pozdrav" ∧
    greeting_name " " ≠ " " := by
  refine ⟨by decide, by decide, by decide⟩

/-- C9 (amended): the greeting name used in both bodies is the recipient's
name stripped of surrounding whitespace when that stripped name is non-empty,
and the fixed fallback word `"pozdrav"` otherwise; both the plain and the
HTML body contain the chosen greeting name. -/
theorem greeting_name_spec (name : String) :
    (¬(pyStrip name = "") → greeting_name name = pyStrip name) ∧
    (pyStrip name = "" → greeting_name name = "pozdrav") ∧
    (∃ pre post, (plainBody (greeting_name name)).data =
      pre ++ (greeting_name name).data ++ post) ∧
    (∀ preview, ∃ pre post, (htmlBody (greeting_name name) preview).data =
      pre ++ (greeting_name name).data ++ post) := by
  refine ⟨fun h => by simp [greeting_name, h], fun h => by simp [greeting_name, h], ?_, ?_⟩
  · exact ⟨"Bok ".data, plainTail.data,
      by simp [plainBody, String.data_append, List.append_assoc]⟩
  · intro preview
    exact ⟨htmlPre.data, (htmlMid ++ preview ++ htmlTail).data,
      by simp [htmlBody, String.data_append, List.append_assoc]⟩

/-- Witness for C9: the name `" Ana "` strips to the non-empty `"Ana"`, which
becomes the greeting. -/
theorem greeting_name_spec_witness :
    greeting_name " Ana " = pyStrip " Ana " :=
  (greeting_name_spec " Ana ").1 (by decide)

/-- C5 counterexample: a table whose `active` column holds the integer 1
(no row holds the boolean `True`), yet its row survives `load_recipients`:
pandas `== True` compares numerically, so integer 1 passes. -/
theorem active_true_counterexample :
    tActiveInt.hasActive = true ∧
    (∀ r ∈ tActiveInt.rows, r.active ≠ .bool true) ∧
    load_recipients (some tActiveInt) = [⟨"a@b", "x"⟩] := by
  refine ⟨rfl, by decide, by decide⟩

/-- C5 (amended): when the `active` column is present, a row survives the
active filter exactly when its `active` value compares equal to Python's
`True`, i.e. is the boolean `true` or the integer 1; arbitrary strings and
`NA` never pass; when the column is absent, all rows are kept. -/
theorem active_filter_spec (t : Table) :
    (t.hasActive = true →
      activeRows t = (normRows t).filter (fun r => pandasEqTrue r.active)) ∧
    (t.hasActive = false → activeRows t = normRows t) ∧
    (∀ v, pandasEqTrue v = true ↔ v = .bool true ∨ v = .int 1) := by
  refine ⟨fun h => by simp [activeRows, h], fun h => by simp [activeRows, h], ?_⟩
  intro v
  cases v <;> simp [pandasEqTrue]

/-- Witness for C5: the active filter applied to the concrete one-row table
with `active = 1`. -/
theorem active_filter_spec_witness :
    activeRows tActiveInt =
      (normRows tActiveInt).filter (fun r => pandasEqTrue r.active) :=
  (active_filter_spec tActiveInt).1 rfl

/-- When message construction succeeds for every recipient, the loop reaches
the end and prints exactly one status line per recipient, whatever the send
outcomes. -/
lemma sendLoop_all_ok (construct : Recipient → Except PyError MimeMsg)
    (send : MimeMsg → Except PyError Unit) :
    ∀ l : List Recipient, (∀ r ∈ l, ∃ m, construct r = .ok m) →
      ∃ lines, sendLoop construct send l = .ok lines ∧
        lines.length = l.length := by
  intro l
  induction l with
  | nil => exact fun _ => ⟨[], rfl, rfl⟩
  | cons r rest ih =>
    intro h
    obtain ⟨m, hm⟩ := h r (List.mem_cons_self r rest)
    obtain ⟨lines, hl, hlen⟩ := ih (fun x hx => h x (List.mem_cons_of_mem r hx))
    refine ⟨(match send m with
             | .ok _ => sentLine r.email
             | .error e => failLine r.email e) :: lines, ?_, by simp [hlen]⟩
    cases hs : send m <;> simp [sendLoop, hm, hl, hs]

/-- C6: only the send call sits inside the `try`. A send failure for
recipient `A` is caught and turned into the console line carrying `A`'s
address and the error detail, and the loop still processes every following
recipient; a failure during message construction, by contrast, propagates and
aborts the whole loop. When construction succeeds everywhere, every recipient
gets exactly one status line. -/
theorem sendLoop_isolation (construct : Recipient → Except PyError MimeMsg)
    (send : MimeMsg → Except PyError Unit) (A : Recipient)
    (rest : List Recipient) (m : MimeMsg) (e : PyError) (ls : List String) :
    (construct A = .ok m → send m = .error e →
      sendLoop construct send rest = .ok ls →
      sendLoop construct send (A :: rest) = .ok (failLine A.email e :: ls)) ∧
    (construct A = .error e → sendLoop construct send (A :: rest) = .error e) ∧
    ((∀ r ∈ A :: rest, ∃ mr, construct r = .ok mr) →
      ∃ lines, sendLoop construct send (A :: rest) = .ok lines ∧
        lines.length = rest.length + 1) := by
  refine ⟨fun h1 h2 h3 => by simp [sendLoop, h1, h2, h3],
    fun h => by simp [sendLoop, h],
    fun h => by simpa using sendLoop_all_ok construct send (A :: rest) h⟩

/-- Witness for C6: with a send step that always raises, both recipients get
failure lines naming their addresses and the error; with a construction step
that raises, the whole run aborts with that error. -/
theorem sendLoop_isolation_witness :
    sendLoop constructOk sendAlwaysFail [recA, recB] =
      .ok [failLine recA.email (.runtimeError "boom"),
           failLine recB.email (.runtimeError "boom")] ∧
    sendLoop constructBoom sendAlwaysFail [recA, recB] =
      .error (.valueError "bad header") :=
  ⟨(sendLoop_isolation constructOk sendAlwaysFail recA [recB]
      (make_email "from@x" recA.email "s" "p" none []) (.runtimeError "boom")
      [failLine recB.email (.runtimeError "boom")]).1 rfl rfl rfl,
   (sendLoop_isolation constructBoom sendAlwaysFail recA [recB]
      (make_email "from@x" recA.email "s" "p" none [])
      (.valueError "bad header") []).2.1 rfl⟩

/-- The implementation's email sanity check agrees pointwise with the
specification's wording (empty, missing, or `"@"`-less emails excluded): an
empty string cannot contain `"@"`. -/
lemma emailHasAt_eq_spec (o : Option String) :
    emailHasAt o =
      (match o with
       | none => false
       | some e => !(e = "") && e.data.contains '@') := by
  cases o with
  | none => rfl
  | some e =>
    cases e with
    | mk l =>
      cases l with
      | nil => rfl
      | cons c cs => simp [emailHasAt, String.ext_iff]

/-- Rows kept by `dropDupAux` come from the input list. -/
lemma mem_of_mem_dropDupAux :
    ∀ (l : List RawRow) (seen : List (Option String)) (r : RawRow),
      r ∈ dropDupAux seen l → r ∈ l := by
  intro l
  induction l with
  | nil => intro seen r h; simp [dropDupAux] at h
  | cons x rest ih =>
    intro seen r h
    by_cases hx : x.email ∈ seen
    · simp only [dropDupAux, if_pos hx] at h
      exact List.mem_cons_of_mem x (ih _ r h)
    · simp only [dropDupAux, if_neg hx, List.mem_cons] at h
      rcases h with rfl | h
      · exact List.mem_cons_self _ _
      · exact List.mem_cons_of_mem x (ih _ r h)

/-- No row kept by `dropDupAux` carries an email already seen. -/
lemma dropDupAux_not_seen :
    ∀ (l : List RawRow) (seen : List (Option String)) (r : RawRow),
      r ∈ dropDupAux seen l → r.email ∉ seen := by
  intro l
  induction l with
  | nil => intro seen r h; simp [dropDupAux] at h
  | cons x rest ih =>
    intro seen r h
    by_cases hx : x.email ∈ seen
    · simp only [dropDupAux, if_pos hx] at h
      exact ih _ r h
    · simp only [dropDupAux, if_neg hx, List.mem_cons] at h
      rcases h with rfl | h
      · exact hx
      · intro hc
        exact ih _ r h (List.mem_cons_of_mem _ hc)

/-- The rows kept by `dropDupAux` have pairwise distinct emails. -/
lemma dropDupAux_pairwise :
    ∀ (l : List RawRow) (seen : List (Option String)),
      List.Pairwise (fun a b => a.email ≠ b.email) (dropDupAux seen l) := by
  intro l
  induction l with
  | nil => intro seen; simp [dropDupAux]
  | cons x rest ih =>
    intro seen
    by_cases hx : x.email ∈ seen
    · simpa only [dropDupAux, if_pos hx] using ih seen
    · simp only [dropDupAux, if_neg hx]
      refine List.Pairwise.cons ?_ (ih _)
      intro b hb
      have := dropDupAux_not_seen rest _ b hb
      intro hc
      exact this (by rw [← hc]; exact List.mem_cons_self _ _)

/-- `drop_duplicates(keep="first")` equals the specification's
first-occurrence recursion, relative to a set of already-seen emails. -/
lemma dropDupAux_eq_firstOccs :
    ∀ (l : List RawRow) (seen : List (Option String)),
      dropDupAux seen l =
        firstOccs (l.filter (fun r => !decide (r.email ∈ seen))) := by
  intro l
  induction l with
  | nil => intro seen; simp [dropDupAux, firstOccs]
  | cons r rest ih =>
    intro seen
    by_cases h : r.email ∈ seen
    · simp [dropDupAux, h, List.filter_cons, ih]
    · simp [dropDupAux, h, List.filter_cons, firstOccs, ih,
        List.filter_filter]

/-- `dropDupFirst` is first-occurrence deduplication. -/
lemma dropDupFirst_eq_firstOccs (l : List RawRow) :
    dropDupFirst l = firstOccs l := by
  have h := dropDupAux_eq_firstOccs l []
  simpa [dropDupFirst] using h

/-- The filtered pipeline of `load_recipients` equals the specification's
single filter over normalized rows. -/
lemma validRows_eq_spec (t : Table) :
    validRows t = (normRows t).filter (specRowOk t.hasActive) := by
  cases ht : t.hasActive with
  | true =>
    simp only [validRows, activeRows, ht, if_pos, List.filter_filter]
    apply List.filter_congr
    intro r _
    rw [emailHasAt_eq_spec]
    simp [specRowOk, Bool.and_comm]
  | false =>
    simp only [validRows, activeRows, ht]
    simp only [Bool.false_eq_true, if_false]
    apply List.filter_congr
    intro r _
    rw [emailHasAt_eq_spec]
    simp [specRowOk]

/-- C2: `load_recipients` computes exactly the specification's pipeline —
emails trimmed and lower-cased, rows with missing, empty or `"@"`-less emails
excluded, first occurrence kept among duplicate emails, missing names filled
with `""`, pairs returned in source order — and the returned recipients have
pairwise distinct emails. -/
theorem load_recipients_refines_spec (t : Table) :
    load_recipients (some t) = load_recipients_spec t ∧
    List.Pairwise (fun a b => a.email ≠ b.email)
      (load_recipients (some t)) := by
  constructor
  · simp only [load_recipients, load_recipients_spec, dropDupFirst_eq_firstOccs,
      validRows_eq_spec, normRows]
  · simp only [load_recipients, List.pairwise_map]
    refine (dropDupAux_pairwise (validRows t) []).imp_of_mem ?_
    intro a b ha hb hne
    have ha' : a ∈ validRows t := mem_of_mem_dropDupAux _ _ _ ha
    have hb' : b ∈ validRows t := mem_of_mem_dropDupAux _ _ _ hb
    have hae : emailHasAt a.email = true := (List.mem_filter.mp ha').2
    have hbe : emailHasAt b.email = true := (List.mem_filter.mp hb').2
    cases hA : a.email with
    | none => rw [hA] at hae; simp [emailHasAt] at hae
    | some ea =>
      cases hB : b.email with
      | none => rw [hB] at hbe; simp [emailHasAt] at hbe
      | some eb =>
        simp only [hA, hB, Option.getD_some]
        intro hc
        exact hne (by rw [hA, hB, hc])

/-- Every summary row is tagged `"summary"`. -/
lemma summaryRows_sectionTag (items : List Item) :
    ∀ r ∈ summaryRows items, r.sectionTag = "summary" := by
  intro r hr
  obtain ⟨st, -, rfl⟩ := List.mem_map.mp hr
  rfl

/-- Every detail row is tagged `"detail"`. -/
lemma detailRows_sectionTag (items : List Item) :
    ∀ r ∈ detailRows items, r.sectionTag = "detail" := by
  intro r hr
  obtain ⟨it, -, rfl⟩ := List.mem_map.mp hr
  rfl

/-- Filtering the whole report for the detail rows of one status yields
exactly the detail images of that status group: the summary section
contributes nothing. -/
lemma report_detail_filter (items : List Item) (st : String) :
    (build_report_on items).filter
      (fun r => r.sectionTag = "detail" && r.status = st) =
    (groupOf items st).map (fun it =>
      ⟨"detail", it.status, none, none, some it.sku, some it.qty⟩) := by
  simp only [build_report_on, List.filter_append]
  have h1 : (summaryRows items).filter
      (fun r => r.sectionTag = "detail" && r.status = st) = [] := by
    rw [List.filter_eq_nil_iff]
    intro r hr
    simp [summaryRows_sectionTag items r hr]
  have h2 : (detailRows items).filter
      (fun r => r.sectionTag = "detail" && r.status = st) =
      (groupOf items st).map (fun it =>
        ⟨"detail", it.status, none, none, some it.sku, some it.qty⟩) := by
    rw [detailRows, List.filter_map, groupOf]
    apply congrArg
    apply List.filter_congr
    intro it _
    simp [Function.comp]
  rw [h1, h2, List.nil_append]

/-- C1: in `build_report`'s output, every summary row's `total_skus` is the
number of detail rows of the same status and its `total_qty` is the sum of
their quantities; the table is the summary section followed by the detail
section, each row tagged by the leading section column; and on the fixed
dataset the summary has the three groups with `total_skus = 1` and
`total_qty` 12, 2, 0. -/
theorem build_report_summary (items : List Item) (row : ReportRow)
    (hmem : row ∈ build_report_on items) (hsec : row.sectionTag = "summary") :
    row.total_skus = some (((build_report_on items).filter
      (fun r => r.sectionTag = "detail" && r.status = row.status)).length : Int) ∧
    row.total_qty = some ((((build_report_on items).filter
      (fun r => r.sectionTag = "detail" && r.status = row.status)).map
      (fun r => r.qty.getD 0)).sum) ∧
    build_report_on items = summaryRows items ++ detailRows items ∧
    (∀ r ∈ summaryRows items, r.sectionTag = "summary") ∧
    (∀ r ∈ detailRows items, r.sectionTag = "detail") ∧
    summaryRows sample_items =
      [⟨"summary", "in_stock", some 1, some 12, none, none⟩,
       ⟨"summary", "low_stock", some 1, some 2, none, none⟩,
       ⟨"summary", "out_of_stock", some 1, some 0, none, none⟩] := by
  rcases List.mem_append.mp hmem with hrow | hrow
  case inr =>
    rw [detailRows_sectionTag items row hrow] at hsec
    simp at hsec
  case inl =>
    obtain ⟨st, -, rfl⟩ := List.mem_map.mp hrow
    refine ⟨?_, ?_, rfl, summaryRows_sectionTag items,
      detailRows_sectionTag items, by decide⟩
    · rw [report_detail_filter]
      simp
    · rw [report_detail_filter]
      simp only [List.map_map]
      have hfun : ((fun r : ReportRow => r.qty.getD 0) ∘ fun it : Item =>
          ({ sectionTag := "detail", status := it.status, total_skus := none,
             total_qty := none, sku := some it.sku,
             qty := some it.qty } : ReportRow)) = Item.qty := by
        funext it; rfl
      rw [hfun]

/-- Witness for C1: the `in_stock` summary row of the fixed dataset counts
exactly the `in_stock` detail rows. -/
theorem build_report_summary_witness :
    ((⟨"summary", "in_stock", some 1, some 12, none, none⟩ : ReportRow) ∈
      build_report_on sample_items) ∧
    (⟨"summary", "in_stock", some 1, some 12, none, none⟩ : ReportRow).total_skus =
      some (((build_report_on sample_items).filter
        (fun r => r.sectionTag = "detail" && r.status = "in_stock")).length : Int) :=
  ⟨by decide,
   (build_report_summary sample_items
     ⟨"summary", "in_stock", some 1, some 12, none, none⟩ (by decide) rfl).1⟩

/-- Encoding a 6-bit value and reading its alphabet position round-trips. -/
lemma b64index_b64char : ∀ n, n < 64 → b64index (b64char n) = n := by decide

/-- No 6-bit value encodes to the padding character. -/
lemma b64char_ne_pad : ∀ n, n < 64 → ¬(b64char n = '=') := by decide

/-- Dividing `x * k + y` by `k` recovers `x` when `y < k`. -/
lemma mulAddDiv (k x y : Nat) (hk : 0 < k) (hy : y < k) : (x * k + y) / k = x := by
  rw [Nat.mul_comm x k, Nat.mul_add_div hk, Nat.div_eq_of_lt hy, Nat.add_zero]

/-- Reducing `x * k + y` modulo `k` recovers `y` when `y < k`. -/
lemma mulAddMod (k x y : Nat) (hy : y < k) : (x * k + y) % k = y := by
  rw [Nat.mul_comm x k, Nat.mul_add_mod, Nat.mod_eq_of_lt hy]

/-- Base64 decoding inverts base64 encoding on byte sequences. -/
theorem base64_roundtrip : ∀ (bs : List Nat), (∀ b ∈ bs, b < 256) →
    base64Decode (base64Encode bs) = bs := by
  intro bs
  induction bs using base64Encode.induct with
  | case1 => intro _; rfl
  | case2 a =>
    intro h
    have ha : a < 256 := h a (by simp)
    have h1 : a / 4 < 64 := by omega
    have h2 : a % 4 * 16 < 64 := by omega
    simp only [base64Encode, base64Decode, if_true,
      b64index_b64char _ h1, b64index_b64char _ h2]
    rw [Nat.mul_div_cancel _ (by norm_num : (0:Nat) < 16)]
    congr 1
    omega
  | case3 a b =>
    intro h
    have ha : a < 256 := h a (by simp)
    have hb : b < 256 := h b (by simp)
    have h1 : a / 4 < 64 := by omega
    have h2 : a % 4 * 16 + b / 16 < 64 := by omega
    have h3 : b % 16 * 4 < 64 := by omega
    simp only [base64Encode, base64Decode, if_neg (b64char_ne_pad _ h3),
      if_true, b64index_b64char _ h1, b64index_b64char _ h2,
      b64index_b64char _ h3]
    rw [mulAddDiv 16 _ _ (by omega) (by omega),
      mulAddMod 16 _ _ (by omega),
      Nat.mul_div_cancel _ (by norm_num : (0:Nat) < 4)]
    congr 1
    · omega
    · congr 1
      omega
  | case4 a b c rest ih =>
    intro h
    have ha : a < 256 := h a (by simp)
    have hb : b < 256 := h b (by simp)
    have hc : c < 256 := h c (by simp)
    have h1 : a / 4 < 64 := by omega
    have h2 : a % 4 * 16 + b / 16 < 64 := by omega
    have h3 : b % 16 * 4 + c / 64 < 64 := by omega
    have h4 : c % 64 < 64 := by omega
    have ih' := ih (fun x hx => h x (by simp [hx]))
    simp only [base64Encode, base64Decode, if_neg (b64char_ne_pad _ h3),
      if_neg (b64char_ne_pad _ h4), b64index_b64char _ h1,
      b64index_b64char _ h2, b64index_b64char _ h3, b64index_b64char _ h4,
      ih']
    rw [mulAddDiv 16 _ _ (by omega) (by omega),
      mulAddMod 16 _ _ (by omega),
      mulAddDiv 4 _ _ (by omega) (by omega),
      mulAddMod 4 _ _ (by omega)]
    congr 1
    · omega
    · congr 1
      · omega
      · congr 1
        omega

/-- C7: the message `make_email` builds for one recipient carries exactly one
attachment; its base64 payload decodes back to the byte-identical CSV
content and it is named `report.csv`; the HTML body contains the rendered
preview table and the plain body contains the chosen greeting name. -/
theorem make_email_attachment (from_e to_e subj g preview : String)
    (content : List Nat) (hb : ∀ b ∈ content, b < 256) :
    (make_email from_e to_e subj (plainBody g) (some (htmlBody g preview))
      [("report.csv", content)]).attachments.length = 1 ∧
    (∀ a ∈ (make_email from_e to_e subj (plainBody g)
        (some (htmlBody g preview)) [("report.csv", content)]).attachments,
      base64Decode a.payload = content ∧ a.filename = "report.csv") ∧
    (∃ pre post, (htmlBody g preview).data = pre ++ preview.data ++ post) ∧
    (∃ pre post, (plainBody g).data = pre ++ g.data ++ post) := by
  refine ⟨rfl, ?_, ?_, ?_⟩
  · intro a ha
    simp only [make_email, List.map_cons, List.map_nil, List.mem_singleton]
      at ha
    subst ha
    exact ⟨base64_roundtrip content hb, rfl⟩
  · exact ⟨(htmlPre ++ g ++ htmlMid).data, htmlTail.data,
      by simp [htmlBody, String.data_append, List.append_assoc]⟩
  · exact ⟨"Bok ".data, plainTail.data,
      by simp [plainBody, String.data_append, List.append_assoc]⟩

/-- Witness for C7: a concrete three-byte attachment decodes back to its
content in the message built for a concrete recipient. -/
theorem make_email_attachment_witness :
    (∀ b ∈ [82, 255, 0], b < 256) ∧
    (∀ a ∈ (make_email "from@x" "to@x" "s" (plainBody "Ana")
        (some (htmlBody "Ana" "<table>"))
        [("report.csv", [82, 255, 0])]).attachments,
      base64Decode a.payload = [82, 255, 0] ∧ a.filename = "report.csv") :=
  ⟨by decide,
   (make_email_attachment "from@x" "to@x" "s" "Ana" "<table>" [82, 255, 0]
     (by decide)).2.1⟩

end PandasMail
